import Mathlib

/-!
Shallow embedding of the mcp-dsp factory-analysis pipeline.

Python floats are modelled as exact rationals; Python `round(x, n)`
(round-half-even) is `roundTo n`, `int()` truncation on a nonnegative
rational is `pyInt`, and `int()` on a string is `pyStrToInt`.
Python dict assignment (replace value of an existing
key in place, else append) is `dictInsert`, and dict iteration follows
insertion order, so dicts are association lists.  External effects
(file parsing, network connects, unexpected exceptions inside an
analyzer call) are passed in as explicit `Except`-valued parameters.
-/

/-- Round-half-even of a rational to the nearest integer, the rounding
mode of the Python builtin `round`. -/
def roundHalfEven (q : ℚ) : ℤ :=
  let f := ⌊q⌋
  if q - f < 1 / 2 then f
  else if 1 / 2 < q - f then f + 1
  else if f % 2 = 0 then f else f + 1

/-- Python `round(q, ndigits)` on the exact value: round-half-even to
`ndigits` decimal places. -/
def roundTo (ndigits : ℕ) (q : ℚ) : ℚ :=
  (roundHalfEven (q * 10 ^ ndigits) : ℚ) / 10 ^ ndigits

/-- Python `int()` applied to a rational: truncation toward zero. -/
def pyInt (q : ℚ) : ℤ :=
  if 0 ≤ q then ⌊q⌋ else ⌈q⌉

/-- Python dict assignment `d[k] = v` on an association list in
insertion order: replace the value at an existing key in place,
otherwise append at the end. -/
def dictInsert {α β : Type} [DecidableEq α] : List (α × β) → α → β → List (α × β)
  | [], k, v => [(k, v)]
  | (k₀, v₀) :: rest, k, v =>
      if k₀ = k then (k₀, v) :: rest else (k₀, v₀) :: dictInsert rest k v

/-- `models/factory_state.py` `ItemMetrics` (stored fields). -/
structure ItemMetrics where
  item_name : String
  production_rate : ℚ
  consumption_rate : ℚ
  current_storage : ℤ
deriving DecidableEq

/-- Derived field `net_rate` computed in `ItemMetrics.__post_init__`. -/
def ItemMetrics.net_rate (m : ItemMetrics) : ℚ :=
  m.production_rate - m.consumption_rate

/-- `models/factory_state.py` `AssemblerMetrics` (stored fields). -/
structure AssemblerMetrics where
  assembler_id : ℤ
  recipe_id : ℤ
  production_rate : ℚ
  theoretical_max : ℚ
  input_starved : Bool := false
  output_blocked : Bool := false
deriving DecidableEq

/-- Derived field `efficiency` computed in
`AssemblerMetrics.__post_init__`. -/
def AssemblerMetrics.efficiency (a : AssemblerMetrics) : ℚ :=
  if a.theoretical_max > 0 then a.production_rate / a.theoretical_max * 100 else 0

/-- `models/factory_state.py` `PowerMetrics` (stored fields). -/
structure PowerMetrics where
  generation_mw : ℚ
  consumption_mw : ℚ
  accumulator_charge_percent : ℚ := 0
deriving DecidableEq

/-- Derived field `surplus_mw` computed in
`PowerMetrics.__post_init__`. -/
def PowerMetrics.surplus_mw (p : PowerMetrics) : ℚ :=
  p.generation_mw - p.consumption_mw

/-- `models/factory_state.py` `BeltMetrics` (stored fields). -/
structure BeltMetrics where
  belt_id : ℤ
  item_type : String
  throughput : ℚ
  max_throughput : ℚ
deriving DecidableEq

/-- Derived field `saturation_percent` computed in
`BeltMetrics.__post_init__`. -/
def BeltMetrics.saturation_percent (b : BeltMetrics) : ℚ :=
  if b.max_throughput > 0 then b.throughput / b.max_throughput * 100 else 0

/-- `models/factory_state.py` `PlanetState`.  The `production` dict is
an association list in insertion order. -/
structure PlanetState where
  planet_id : ℤ
  planet_name : String := ""
  production : List (String × ItemMetrics) := []
  assemblers : List AssemblerMetrics := []
  power : Option PowerMetrics := none
  belts : List BeltMetrics := []
deriving DecidableEq

/-- `models/factory_state.py` `FactoryState`.  The planet dict is an
association list in insertion order; the timestamp is the numeric
epoch (the `datetime` conversion is modelled as the identity on it). -/
structure FactoryState where
  timestamp : ℚ
  planets : List (ℤ × PlanetState) := []
deriving DecidableEq

/-- The planet-filter test shared by all three analyzers: the loop body
runs unless `planet_id is not None and pid != planet_id`. -/
def keepPlanet (planet_id : Option ℤ) (pid : ℤ) : Bool :=
  match planet_id with
  | none => true
  | some target => pid == target

/-- Digits-only decimal parse used by `pyStrToInt`: `some` only when the
list is nonempty and every character is a decimal digit. -/
def digitsToNat (cs : List Char) : Option ℕ :=
  if cs.isEmpty then none
  else
    cs.foldl
      (fun acc c =>
        acc.bind (fun n => if c.isDigit then some (n * 10 + (c.toNat - 48)) else none))
      (some 0)

/-- Python `int()` applied to a string, modelled as an optional minus
sign (codepoint 45) followed by decimal digits; `none` is the
`ValueError` case. -/
def pyStrToInt (s : String) : Option ℤ :=
  match s.data with
  | [] => none
  | c :: rest =>
      if c = Char.ofNat 45 then (digitsToNat rest).map (fun n => -(n : ℤ))
      else (digitsToNat (c :: rest)).map (fun n => (n : ℤ))

/-- Raw per-planet `Power` record of the real-time feed; every field is
optional, read with `.get(key, 0)`. -/
structure RawPowerData where
  generationMW : Option ℚ := none
  consumptionMW : Option ℚ := none
  accumulatorPercent : Option ℚ := none
deriving DecidableEq

/-- Raw per-planet production entry of the real-time feed. -/
structure RawProductionEntry where
  itemName : Option String := none
  productionRate : Option ℚ := none
  consumptionRate : Option ℚ := none
  storage : Option ℤ := none
deriving DecidableEq

/-- Raw per-planet record of the real-time feed. -/
structure RawPlanetData where
  power : Option RawPowerData := none
  production : Option (List RawProductionEntry) := none
deriving DecidableEq

/-- A raw real-time frame: planet records keyed by planet-id string in
insertion order, plus an optional numeric `Timestamp`. -/
structure RawRealtimeData where
  planets : Option (List (String × RawPlanetData)) := none
  timestamp : Option ℚ := none
deriving DecidableEq

/-- The `PlanetState` built for one raw planet record in
`FactoryState.from_realtime_data`: power from the optional `Power`
record, production dict filled entry by entry, every missing field
defaulting to zero, empty, or `"unknown"`. -/
def buildPlanetState (pid : ℤ) (raw : RawPlanetData) : PlanetState :=
  { planet_id := pid
    planet_name := ""
    production :=
      (raw.production.getD []).foldl
        (fun dict prod =>
          let nm := prod.itemName.getD ("unknown")
          dictInsert dict nm
            { item_name := nm
              production_rate := prod.productionRate.getD 0
              consumption_rate := prod.consumptionRate.getD 0
              current_storage := prod.storage.getD 0 })
        []
    assemblers := []
    power :=
      raw.power.map
        (fun pd =>
          { generation_mw := pd.generationMW.getD 0
            consumption_mw := pd.consumptionMW.getD 0
            accumulator_charge_percent := pd.accumulatorPercent.getD 0 })
    belts := [] }

/-- The planet loop of `FactoryState.from_realtime_data`: each planet-id
key goes through `int()`; a key that fails to parse raises, discarding
everything (the error value is the offending key). -/
def buildPlanets : List (String × RawPlanetData) → List (ℤ × PlanetState) →
    Except String (List (ℤ × PlanetState))
  | [], acc => .ok acc
  | kp :: rest, acc =>
      match pyStrToInt kp.1 with
      | none => .error kp.1
      | some pid => buildPlanets rest (dictInsert acc pid (buildPlanetState pid kp.2))

/-- `FactoryState.from_realtime_data` (`models/factory_state.py`): the
result is `Except`-valued because `int(planet_id_str)` can raise
`ValueError`. -/
def FactoryState.from_realtime_data (data : RawRealtimeData) : Except String FactoryState := do
  let planets ← buildPlanets (data.planets.getD []) []
  pure { timestamp := data.timestamp.getD 0, planets := planets }

/-- `tools/bottleneck_analyzer.py` `Bottleneck`. -/
structure Bottleneck where
  item_name : String
  bottleneck_type : String
  severity : ℚ
  affected_throughput : ℚ
  root_cause : String
  recommendation : String
deriving DecidableEq

namespace BottleneckAnalyzer

/-- `BottleneckAnalyzer._analyze_assembler`: the planet and target-item
parameters are accepted and ignored, exactly as in the source. -/
def analyze_assembler (assembler : AssemblerMetrics) (_planet : PlanetState)
    (_target_item : Option String) : Option Bottleneck :=
  if assembler.input_starved then
    some
      { item_name := "unknown"
        bottleneck_type := "input_starvation"
        severity := 100 - assembler.efficiency
        affected_throughput := assembler.theoretical_max - assembler.production_rate
        root_cause := "Insufficient input materials"
        recommendation := "Increase upstream production or add more input belts" }
  else if assembler.output_blocked then
    some
      { item_name := "unknown"
        bottleneck_type := "output_blocked"
        severity := 100 - assembler.efficiency
        affected_throughput := assembler.theoretical_max - assembler.production_rate
        root_cause := "Output buffer full, downstream consumption insufficient"
        recommendation := "Add more output belts or increase downstream consumption" }
  else none

/-- The per-assembler step of `BottleneckAnalyzer.analyze`: the
efficiency guard wrapped around `_analyze_assembler`. -/
def assemblerStep (planet : PlanetState) (target_item : Option String)
    (assembler : AssemblerMetrics) : Option Bottleneck :=
  if assembler.efficiency < 90 then analyze_assembler assembler planet target_item else none

/-- The planets visited by the loop in `BottleneckAnalyzer.analyze`. -/
def selectedPlanets (factory_state : FactoryState) (planet_id : Option ℤ) :
    List (ℤ × PlanetState) :=
  factory_state.planets.filter (fun pp => keepPlanet planet_id pp.1)

/-- The bottleneck list accumulated by the loops in
`BottleneckAnalyzer.analyze`, in iteration order, before sorting. -/
def collectFindings (factory_state : FactoryState) (planet_id : Option ℤ)
    (target_item : Option String) : List Bottleneck :=
  (selectedPlanets factory_state planet_id).flatMap
    (fun pp => pp.2.assemblers.filterMap (assemblerStep pp.2 target_item))

/-- The comparison realised by `bottlenecks.sort(key=lambda b:
b.severity, reverse=True)`: a stable sort placing larger severities
first. -/
def bottleneckLE (b₁ b₂ : Bottleneck) : Bool :=
  decide (b₂.severity ≤ b₁.severity)

/-- The findings after the in-place stable descending sort. -/
def sortedFindings (factory_state : FactoryState) (planet_id : Option ℤ)
    (target_item : Option String) : List Bottleneck :=
  (collectFindings factory_state planet_id target_item).mergeSort bottleneckLE

/-- `BottleneckAnalyzer._build_critical_path`. -/
def build_critical_path (bottlenecks : List Bottleneck) : List String :=
  (bottlenecks.take 5).map (fun b => b.item_name)

/-- Report dict returned by `BottleneckAnalyzer.analyze`. -/
structure Report where
  timestamp : ℚ
  planets_analyzed : ℕ
  bottlenecks_found : ℕ
  bottlenecks : List Bottleneck
  critical_path : List String
deriving DecidableEq

/-- `BottleneckAnalyzer.analyze`. -/
def analyze (factory_state : FactoryState) (planet_id : Option ℤ := none)
    (target_item : Option String := none) (_time_window : ℤ := 60)
    (include_downstream : Bool := true) : Report :=
  let sorted := sortedFindings factory_state planet_id target_item
  { timestamp := factory_state.timestamp
    planets_analyzed := (selectedPlanets factory_state planet_id).length
    bottlenecks_found := sorted.length
    bottlenecks := sorted.take 10
    critical_path := if include_downstream then build_critical_path sorted else [] }

end BottleneckAnalyzer

namespace PowerAnalyzer

/-- The three recommendation tiers returned by
`PowerAnalyzer._generate_recommendation`; the message strings are
abstracted to constructors carrying the numeric parameters that are
interpolated into them. -/
inductive Recommendation where
  | minorThermal (deficit : ℚ)
  | fusionPlants (deficit : ℚ) (plants_needed : ℤ)
  | majorDeficit (deficit : ℚ)
deriving DecidableEq

/-- `PowerAnalyzer._generate_recommendation`. -/
def generate_recommendation (power : PowerMetrics) : Recommendation :=
  let deficit := |power.surplus_mw|
  if deficit < 10 then .minorThermal deficit
  else if deficit < 50 then .fusionPlants deficit (pyInt (deficit / 15) + 1)
  else .majorDeficit deficit

/-- The global recommendation messages of
`PowerAnalyzer._global_recommendations`, abstracted to constructors
carrying the interpolated numbers. -/
inductive GlobalRecommendation where
  | criticalDeficit (deficit : ℚ)
  | warnLowSurplus (surplus_percent : ℚ)
  | addCapacityNote
  | healthySurplus (surplus_percent : ℚ)
deriving DecidableEq

/-- `PowerAnalyzer._global_recommendations`. -/
def global_recommendations (generation consumption : ℚ) : List GlobalRecommendation :=
  let surplus := generation - consumption
  let surplus_percent := if consumption > 0 then surplus / consumption * 100 else 100
  if surplus < 0 then [.criticalDeficit (roundTo 1 |surplus|)]
  else if surplus_percent < 10 then [.warnLowSurplus (roundTo 1 surplus_percent), .addCapacityNote]
  else if surplus_percent > 50 then [.healthySurplus (roundTo 1 surplus_percent)]
  else []

/-- One entry of the `planets` list in the power report
(`planet_data` in the source); the accumulator-charge string
`"{:.1f}%"` is abstracted to its rounded numeric value. -/
structure PlanetEntry where
  planet_id : ℤ
  planet_name : String
  generation_mw : ℚ
  consumption_mw : ℚ
  surplus_mw : ℚ
  status : String
  recommendation : Option Recommendation
  accumulator_charge : Option ℚ
deriving DecidableEq

/-- The planets the loop in `PowerAnalyzer.analyze` accumulates: kept by
the planet filter and having power data. -/
def selectedPowerPlanets (factory_state : FactoryState) (planet_id : Option ℤ) :
    List (ℤ × PlanetState × PowerMetrics) :=
  factory_state.planets.filterMap
    (fun pp =>
      if keepPlanet planet_id pp.1 then pp.2.power.map (fun pw => (pp.1, pp.2, pw))
      else none)

/-- The `planet_data` dict built for one selected planet in
`PowerAnalyzer.analyze`. -/
def planetEntry (include_accumulator_cycles : Bool)
    (sel : ℤ × PlanetState × PowerMetrics) : PlanetEntry :=
  let pw := sel.2.2
  { planet_id := sel.1
    planet_name := sel.2.1.planet_name
    generation_mw := roundTo 2 pw.generation_mw
    consumption_mw := roundTo 2 pw.consumption_mw
    surplus_mw := roundTo 2 pw.surplus_mw
    status := if pw.surplus_mw ≥ 0 then "surplus" else "deficit"
    recommendation := if pw.surplus_mw < 0 then some (generate_recommendation pw) else none
    accumulator_charge :=
      if include_accumulator_cycles then some (roundTo 1 pw.accumulator_charge_percent)
      else none }

/-- The `summary` dict of the power report. -/
structure Summary where
  total_generation_mw : ℚ
  total_consumption_mw : ℚ
  net_surplus_mw : ℚ
  planets_with_deficit : ℕ
deriving DecidableEq

/-- Report dict returned by `PowerAnalyzer.analyze`. -/
structure Report where
  timestamp : ℚ
  summary : Summary
  planets : List PlanetEntry
  recommendations : List GlobalRecommendation
deriving DecidableEq

/-- `PowerAnalyzer.analyze`. -/
def analyze (factory_state : FactoryState) (planet_id : Option ℤ := none)
    (include_accumulator_cycles : Bool := true) : Report :=
  let sel := selectedPowerPlanets factory_state planet_id
  let total_generation := (sel.map (fun t => t.2.2.generation_mw)).sum
  let total_consumption := (sel.map (fun t => t.2.2.consumption_mw)).sum
  { timestamp := factory_state.timestamp
    summary :=
      { total_generation_mw := roundTo 2 total_generation
        total_consumption_mw := roundTo 2 total_consumption
        net_surplus_mw := roundTo 2 (total_generation - total_consumption)
        planets_with_deficit :=
          (sel.filter (fun t => decide (t.2.2.surplus_mw < 0))).length }
    planets := sel.map (planetEntry include_accumulator_cycles)
    recommendations := global_recommendations total_generation total_consumption }

end PowerAnalyzer

namespace LogisticsAnalyzer

/-- `LogisticsAnalyzer._detect_tier`. -/
def detect_tier (max_throughput : ℚ) : String :=
  if max_throughput ≤ 6 then "mk1"
  else if max_throughput ≤ 12 then "mk2"
  else "mk3"

/-- `LogisticsAnalyzer._upgrade_recommendation`. -/
def upgrade_recommendation (belt : BeltMetrics) : String :=
  let current_tier := detect_tier belt.max_throughput
  if current_tier = "mk1" then "Upgrade to Mk2 (green) belt for 2x throughput"
  else if current_tier = "mk2" then "Upgrade to Mk3 (yellow) belt for 2.5x throughput"
  else "At max tier - consider parallel belt lines"

/-- The item-filter skip test of `LogisticsAnalyzer.analyze`: the belt is
skipped when `item_filter and belt.item_type not in item_filter`; note
that `None` and the empty list are both falsy. -/
def beltSkipped (item_filter : Option (List String)) (belt : BeltMetrics) : Bool :=
  match item_filter with
  | none => false
  | some fl => !fl.isEmpty && !fl.contains belt.item_type

/-- The belts visited (with their planet id) by the loops in
`LogisticsAnalyzer.analyze`, after the planet filter and the item
filter. -/
def selectedBelts (factory_state : FactoryState) (planet_id : Option ℤ)
    (item_filter : Option (List String)) : List (ℤ × BeltMetrics) :=
  (factory_state.planets.filter (fun pp => keepPlanet planet_id pp.1)).flatMap
    (fun pp =>
      (pp.2.belts.filter (fun b => !beltSkipped item_filter b)).map (fun b => (pp.1, b)))

/-- The `belt_data` dict of `LogisticsAnalyzer.analyze`, with the
`status` and optional `recommendation` keys added by the classifying
branch. -/
structure BeltEntry where
  planet_id : ℤ
  belt_id : ℤ
  item : String
  throughput : ℚ
  max_throughput : ℚ
  saturation : ℚ
  status : String
  recommendation : Option String
deriving DecidableEq

/-- The `belt_data` dict as first built, before a `status` is added. -/
def beltData (pid : ℤ) (belt : BeltMetrics) (status : String)
    (recommendation : Option String) : BeltEntry :=
  { planet_id := pid
    belt_id := belt.belt_id
    item := belt.item_type
    throughput := roundTo 2 belt.throughput
    max_throughput := belt.max_throughput
    saturation := roundTo 1 belt.saturation_percent
    status := status
    recommendation := recommendation }

/-- The `if` branch test: `belt.saturation_percent >=
saturation_threshold`. -/
def satCondition (saturation_threshold : ℚ) (belt : BeltMetrics) : Bool :=
  decide (belt.saturation_percent ≥ saturation_threshold)

/-- The `elif` branch test: the first test failed and
`belt.saturation_percent >= saturation_threshold - 10`. -/
def nearCondition (saturation_threshold : ℚ) (belt : BeltMetrics) : Bool :=
  !satCondition saturation_threshold belt &&
    decide (belt.saturation_percent ≥ saturation_threshold - 10)

/-- The `saturated_belts` list before sorting and truncation. -/
def saturatedAll (factory_state : FactoryState) (planet_id : Option ℤ)
    (item_filter : Option (List String)) (saturation_threshold : ℚ) : List BeltEntry :=
  (selectedBelts factory_state planet_id item_filter).filterMap
    (fun pb =>
      if satCondition saturation_threshold pb.2 then
        some (beltData pb.1 pb.2 ("saturated") (some (upgrade_recommendation pb.2)))
      else none)

/-- The `near_saturation` list before sorting and truncation. -/
def nearAll (factory_state : FactoryState) (planet_id : Option ℤ)
    (item_filter : Option (List String)) (saturation_threshold : ℚ) : List BeltEntry :=
  (selectedBelts factory_state planet_id item_filter).filterMap
    (fun pb =>
      if nearCondition saturation_threshold pb.2 then
        some (beltData pb.1 pb.2 ("near_saturation") none)
      else none)

/-- The comparison realised by `.sort(key=lambda b: b["saturation"],
reverse=True)` on belt entries. -/
def beltEntryLE (e₁ e₂ : BeltEntry) : Bool :=
  decide (e₂.saturation ≤ e₁.saturation)

/-- The counting dict built over the saturated belts in
`LogisticsAnalyzer._global_recommendations` (`item_counts`). -/
def countItems (entries : List BeltEntry) : List (String × ℕ) :=
  entries.foldl (fun counts e => bump counts e.item) []
where
  /-- `item_counts[item] = item_counts.get(item, 0) + 1`. -/
  bump : List (String × ℕ) → String → List (String × ℕ)
    | [], it => [(it, 1)]
    | (k, n) :: rest, it =>
        if k = it then (k, n + 1) :: rest else (k, n) :: bump rest it

/-- Python `max(item_counts, key=item_counts.get)`: the first key of
maximal count in iteration order. -/
def argmaxFirst : List (String × ℕ) → Option (String × ℕ)
  | [] => none
  | x :: rest => some (rest.foldl (fun best y => if y.2 > best.2 then y else best) x)

/-- The global recommendation messages of
`LogisticsAnalyzer._global_recommendations`, abstracted to constructors
carrying the interpolated values. -/
inductive GlobalRecommendation where
  | healthy
  | targetedUpgrades (saturated : ℕ)
  | systematicUpgrade (saturated : ℕ)
  | mostCongested (item : String) (belts : ℕ)
deriving DecidableEq

/-- `LogisticsAnalyzer._global_recommendations`, applied to the full
sorted saturated list. -/
def global_recommendations (saturated_belts : List BeltEntry) : List GlobalRecommendation :=
  if saturated_belts.length = 0 then [.healthy]
  else if saturated_belts.length < 5 then [.targetedUpgrades saturated_belts.length]
  else
    match argmaxFirst (countItems saturated_belts) with
    | some (worst_item, n) =>
        [.systematicUpgrade saturated_belts.length, .mostCongested worst_item n]
    | none => [.systematicUpgrade saturated_belts.length]

/-- Report dict returned by `LogisticsAnalyzer.analyze`; the two counts
are the `summary` values, taken before truncation. -/
structure Report where
  timestamp : ℚ
  threshold : ℚ
  saturated_count : ℕ
  near_saturation_count : ℕ
  saturated_belts : List BeltEntry
  near_saturation : List BeltEntry
  recommendations : List GlobalRecommendation
deriving DecidableEq

/-- `LogisticsAnalyzer.analyze`. -/
def analyze (factory_state : FactoryState) (planet_id : Option ℤ := none)
    (item_filter : Option (List String) := none) (saturation_threshold : ℚ := 95) : Report :=
  let saturated :=
    (saturatedAll factory_state planet_id item_filter saturation_threshold).mergeSort
      beltEntryLE
  let near :=
    (nearAll factory_state planet_id item_filter saturation_threshold).mergeSort beltEntryLE
  { timestamp := factory_state.timestamp
    threshold := saturation_threshold
    saturated_count := saturated.length
    near_saturation_count := near.length
    saturated_belts := saturated.take 20
    near_saturation := near.take 10
    recommendations := global_recommendations saturated }

end LogisticsAnalyzer

namespace RealTimeStream

/-- The mutable attributes of `RealTimeStream` read by `is_connected`
and `get_current_state`. -/
structure State where
  connected : Bool
  latest_state : Option FactoryState
deriving DecidableEq

/-- The two failure conditions `get_current_state` can raise:
`ConnectionError("Cannot connect to game")` and
`TimeoutError("No data received from game")`. -/
inductive Failure where
  | connectionUnavailable
  | timeout
deriving DecidableEq

/-- `RealTimeStream.is_connected`: the connection flag is set and at
least one state has been received. -/
def is_connected (s : State) : Bool :=
  s.connected && s.latest_state.isSome

/-- The bounded poll loop of `get_current_state`: return the current
latest state if one is already there, else whatever the receive loop
delivers within the 5-second budget (`incoming`), else time out. -/
def waitForState (current incoming : Option FactoryState) : Except Failure FactoryState :=
  match current with
  | some st => .ok st
  | none =>
      match incoming with
      | some st => .ok st
      | none => .error .timeout

/-- `RealTimeStream.get_current_state`.  The outcome of the single
`connect()` call and the state (if any) delivered by the receive loop
during the poll are external effects passed as parameters; the second
component counts how many `connect()` attempts the call makes. -/
def get_current_state (s : State) (connect_succeeds : Bool)
    (incoming : Option FactoryState) : Except Failure FactoryState × ℕ :=
  if is_connected s then (waitForState s.latest_state incoming, 0)
  else if connect_succeeds then (waitForState s.latest_state incoming, 1)
  else (.error .connectionUnavailable, 1)

end RealTimeStream

namespace Server

/-- The exceptions distinguished by the `except` clauses of
`load_save_analysis`: `FileNotFoundError` and everything else. -/
inductive PyErr where
  | fileNotFound (msg : String)
  | other (msg : String)
deriving DecidableEq

/-- The value returned by the `load_save_analysis` tool: one focused
report, the combined three-section report, or a structured error
object. -/
inductive SaveAnalysisResult where
  | production (r : BottleneckAnalyzer.Report)
  | power (r : PowerAnalyzer.Report)
  | logistics (r : LogisticsAnalyzer.Report)
  | full (production : BottleneckAnalyzer.Report) (power : PowerAnalyzer.Report)
      (logistics : LogisticsAnalyzer.Report)
  | errorObj (error : String) (message : String)
deriving DecidableEq

/-- `server.py` `load_save_analysis`: one `try` block around the parse
and every analyzer call; the parse result and the three analyzer calls
are `Except`-valued parameters so that an unexpected internal fault in
any one of them can be modelled. -/
def load_save_analysis (parse_result : Except PyErr FactoryState)
    (run_bottleneck : FactoryState → Except PyErr BottleneckAnalyzer.Report)
    (run_power : FactoryState → Except PyErr PowerAnalyzer.Report)
    (run_logistics : FactoryState → Except PyErr LogisticsAnalyzer.Report)
    (analysis_type : String) : SaveAnalysisResult :=
  let attempt : Except PyErr SaveAnalysisResult := do
    let factory_state ← parse_result
    if analysis_type = "production" then
      let r ← run_bottleneck factory_state
      pure (.production r)
    else if analysis_type = "power" then
      let r ← run_power factory_state
      pure (.power r)
    else if analysis_type = "logistics" then
      let r ← run_logistics factory_state
      pure (.logistics r)
    else
      let b ← run_bottleneck factory_state
      let p ← run_power factory_state
      let l ← run_logistics factory_state
      pure (.full b p l)
  match attempt with
  | .ok r => r
  | .error (.fileNotFound m) => .errorObj ("file_not_found") m
  | .error (.other m) => .errorObj ("parse_failed") m

/-- The bottleneck analyzer as called by `load_save_analysis`
(defaults only), raising nothing. -/
def runBottleneck (factory_state : FactoryState) :
    Except PyErr BottleneckAnalyzer.Report :=
  .ok (BottleneckAnalyzer.analyze factory_state none none 60 true)

/-- The power analyzer as called by `load_save_analysis`. -/
def runPower (factory_state : FactoryState) : Except PyErr PowerAnalyzer.Report :=
  .ok (PowerAnalyzer.analyze factory_state none true)

/-- The logistics analyzer as called by `load_save_analysis`. -/
def runLogistics (factory_state : FactoryState) :
    Except PyErr LogisticsAnalyzer.Report :=
  .ok (LogisticsAnalyzer.analyze factory_state none none 95)

/-- A power-analyzer call hitting an unexpected internal fault. -/
def failingPower (_factory_state : FactoryState) : Except PyErr PowerAnalyzer.Report :=
  .error (.other ("boom"))

end Server

/-! Concrete fixtures used by witnesses and counterexamples. -/

/-- A factory state with zero planets. -/
def exampleEmptyState : FactoryState :=
  { timestamp := 0, planets := [] }

/-- A raw frame whose only planet-id key is not numeric. -/
def badKeyFrame : RawRealtimeData :=
  { planets := some [(("abc"), {})], timestamp := none }

/-- A raw frame whose only planet-id key is the digit 7. -/
def goodKeyFrame : RawRealtimeData :=
  { planets := some [(("7"), {})], timestamp := none }

/-- Power metrics whose sub-cent digits make the independently rounded
summary fields disagree: generation 1.006 MW, consumption 0.003 MW. -/
def roundingPowerMetrics : PowerMetrics :=
  { generation_mw := 503 / 500, consumption_mw := 3 / 1000, accumulator_charge_percent := 0 }

/-- One-planet state around `roundingPowerMetrics`. -/
def roundingState : FactoryState :=
  { timestamp := 0
    planets := [(1, { planet_id := 1, power := some roundingPowerMetrics })] }

/-- The scenario planet of the spec: generation 100 MW, consumption
120 MW. -/
def deficitPowerMetrics : PowerMetrics :=
  { generation_mw := 100, consumption_mw := 120, accumulator_charge_percent := 0 }

/-- One-planet state (planet 1) around `deficitPowerMetrics`. -/
def deficitState : FactoryState :=
  { timestamp := 0
    planets := [(1, { planet_id := 1, power := some deficitPowerMetrics })] }

/-- An input-starved assembler at 40 percent efficiency. -/
def starvedAssembler : AssemblerMetrics :=
  { assembler_id := 1, recipe_id := 1, production_rate := 40, theoretical_max := 100
    input_starved := true, output_blocked := false }

/-- One-planet state around `starvedAssembler`. -/
def starvedState : FactoryState :=
  { timestamp := 0
    planets := [(1, { planet_id := 1, assemblers := [starvedAssembler] })] }

/-- A nearly full belt: 29 of 30 items per second. -/
def busyBelt : BeltMetrics :=
  { belt_id := 1, item_type := "iron-ingot", throughput := 29, max_throughput := 30 }

/-- One-planet state around `busyBelt`. -/
def busyBeltState : FactoryState :=
  { timestamp := 0
    planets := [(1, { planet_id := 1, belts := [busyBelt] })] }

/-- A stream client that is disconnected and has received nothing. -/
def disconnectedStream : RealTimeStream.State :=
  { connected := false, latest_state := none }

/-! Helper lemmas. -/

/-- Rounding a rational strictly within half a unit of an integer gives
that integer. -/
lemma roundHalfEven_near {q : ℚ} {z : ℤ} (h₁ : (z : ℚ) - 1 / 2 < q)
    (h₂ : q < (z : ℚ) + 1 / 2) : roundHalfEven q = z := by
  by_cases hq : (z : ℚ) ≤ q
  · have hf : ⌊q⌋ = z := Int.floor_eq_iff.mpr ⟨hq, by linarith⟩
    simp only [roundHalfEven, hf]
    rw [if_pos (by linarith)]
  · push_neg at hq
    have hf : ⌊q⌋ = z - 1 := by
      rw [Int.floor_eq_iff]
      constructor
      · push_cast
        linarith
      · push_cast
        linarith
    simp only [roundHalfEven, hf]
    rw [if_neg (by push_cast; linarith), if_pos (by push_cast; linarith)]
    omega

/-- Evaluation rule for `roundTo` away from ties. -/
lemma roundTo_eq {n : ℕ} {q : ℚ} {z : ℤ} (h₁ : (z : ℚ) - 1 / 2 < q * 10 ^ n)
    (h₂ : q * 10 ^ n < (z : ℚ) + 1 / 2) : roundTo n q = (z : ℚ) / 10 ^ n := by
  unfold roundTo
  rw [roundHalfEven_near h₁ h₂]

/-- Round-half-even moves a rational by at most one half. -/
lemma abs_roundHalfEven_sub_le (q : ℚ) : |(roundHalfEven q : ℚ) - q| ≤ 1 / 2 := by
  have hf₁ : (⌊q⌋ : ℚ) ≤ q := Int.floor_le q
  have hf₂ : q < (⌊q⌋ : ℚ) + 1 := Int.lt_floor_add_one q
  simp only [roundHalfEven]
  split_ifs with h₁ h₂ h₃ <;> rw [abs_le] <;> constructor <;> push_cast <;> linarith

/-- An integer within three halves in absolute value is within one. -/
lemma int_abs_div_bound (N : ℤ) (h : |(N : ℚ)| ≤ 3 / 2) : |(N : ℚ) / 100| ≤ 1 / 100 := by
  rw [← Int.cast_abs] at h
  have h2 : ((|N| : ℤ) : ℚ) < ((2 : ℤ) : ℚ) := lt_of_le_of_lt h (by norm_num)
  have h3 : |N| < 2 := by exact_mod_cast h2
  have h4 : |N| ≤ 1 := by omega
  have h5 : |(N : ℚ)| ≤ 1 := by
    rw [← Int.cast_abs]
    exact_mod_cast h4
  rw [abs_div, abs_of_pos (by norm_num : (0 : ℚ) < 100)]
  linarith

/-- Rounding three quantities to two decimals independently leaves the
identity `net = generation - consumption` true to within one cent. -/
lemma roundTo_two_sub_bound (x y : ℚ) :
    |roundTo 2 (x - y) - (roundTo 2 x - roundTo 2 y)| ≤ 1 / 100 := by
  obtain ⟨ha₁, ha₂⟩ := abs_le.mp (abs_roundHalfEven_sub_le ((x - y) * 10 ^ 2))
  obtain ⟨hb₁, hb₂⟩ := abs_le.mp (abs_roundHalfEven_sub_le (x * 10 ^ 2))
  obtain ⟨hc₁, hc₂⟩ := abs_le.mp (abs_roundHalfEven_sub_le (y * 10 ^ 2))
  have hsum : |((roundHalfEven ((x - y) * 10 ^ 2) - roundHalfEven (x * 10 ^ 2) +
      roundHalfEven (y * 10 ^ 2) : ℤ) : ℚ)| ≤ 3 / 2 := by
    rw [abs_le]
    constructor <;> push_cast <;> linarith
  have hval : roundTo 2 (x - y) - (roundTo 2 x - roundTo 2 y) =
      ((roundHalfEven ((x - y) * 10 ^ 2) - roundHalfEven (x * 10 ^ 2) +
        roundHalfEven (y * 10 ^ 2) : ℤ) : ℚ) / 100 := by
    simp only [roundTo]
    push_cast
    ring
  rw [hval]
  exact int_abs_div_bound _ hsum

/-- `bottleneckLE` is transitive. -/
lemma bottleneckLE_trans (a b c : Bottleneck)
    (h₁ : BottleneckAnalyzer.bottleneckLE a b = true)
    (h₂ : BottleneckAnalyzer.bottleneckLE b c = true) :
    BottleneckAnalyzer.bottleneckLE a c = true := by
  simp only [BottleneckAnalyzer.bottleneckLE, decide_eq_true_iff] at h₁ h₂ ⊢
  exact le_trans h₂ h₁

/-- `bottleneckLE` is total. -/
lemma bottleneckLE_total (a b : Bottleneck) :
    (BottleneckAnalyzer.bottleneckLE a b || BottleneckAnalyzer.bottleneckLE b a) = true := by
  simp only [BottleneckAnalyzer.bottleneckLE, Bool.or_eq_true, decide_eq_true_iff]
  exact le_total b.severity a.severity

/-- Stable-sort filter identity for any predicate closed under the sort
order on its satisfying elements. -/
lemma mergeSort_filter_stable (l : List Bottleneck) (p : Bottleneck → Bool)
    (hp : ∀ x y, p x = true → p y = true → BottleneckAnalyzer.bottleneckLE x y = true) :
    (l.mergeSort BottleneckAnalyzer.bottleneckLE).filter p = l.filter p := by
  have hpw : (l.filter p).Pairwise (fun a b => BottleneckAnalyzer.bottleneckLE a b = true) := by
    apply List.pairwise_of_forall_mem_list
    intro a ha b hb
    exact hp a b (List.of_mem_filter ha) (List.of_mem_filter hb)
  have h₁ : (l.filter p).Sublist (l.mergeSort BottleneckAnalyzer.bottleneckLE) :=
    List.sublist_mergeSort bottleneckLE_trans bottleneckLE_total hpw (List.filter_sublist l)
  have h₂ : (l.filter p).Sublist ((l.mergeSort BottleneckAnalyzer.bottleneckLE).filter p) := by
    have h₃ := List.Sublist.filter p h₁
    have hall : ∀ a ∈ l.filter p, p a = true := by
      intro a ha
      exact List.of_mem_filter ha
    rwa [List.filter_eq_self.mpr hall] at h₃
  have hperm : ((l.mergeSort BottleneckAnalyzer.bottleneckLE).filter p).Perm (l.filter p) :=
    List.Perm.filter _ (List.mergeSort_perm l _)
  exact (h₂.eq_of_length hperm.length_eq.symm).symm

/-- Stability of the severity sort: the elements at any one severity
value come out in exactly the order they went in. -/
lemma mergeSort_filter_severity (l : List Bottleneck) (v : ℚ) :
    (l.mergeSort BottleneckAnalyzer.bottleneckLE).filter (fun b => decide (b.severity = v)) =
      l.filter (fun b => decide (b.severity = v)) := by
  apply mergeSort_filter_stable
  intro x y hx hy
  simp only [decide_eq_true_iff] at hx hy
  simp only [BottleneckAnalyzer.bottleneckLE, decide_eq_true_iff]
  rw [hx, hy]

/-- Any finding the per-assembler step emits has severity
`100 - efficiency`, and the step only fires below 90 percent. -/
lemma assemblerStep_severity {p : PlanetState} {tgt : Option String}
    {a : AssemblerMetrics} {b : Bottleneck}
    (h : BottleneckAnalyzer.assemblerStep p tgt a = some b) :
    a.efficiency < 90 ∧ b.severity = 100 - a.efficiency := by
  unfold BottleneckAnalyzer.assemblerStep BottleneckAnalyzer.analyze_assembler at h
  split_ifs at h with h₁ h₂ h₃ <;> simp_all
  · exact h.symm ▸ rfl
  · exact h.symm ▸ rfl

/-- Every entry of the untruncated saturated list is tagged
`"saturated"`. -/
lemma saturatedAll_status {fs : FactoryState} {pid : Option ℤ}
    {f : Option (List String)} {t : ℚ} {e : LogisticsAnalyzer.BeltEntry}
    (h : e ∈ LogisticsAnalyzer.saturatedAll fs pid f t) : e.status = "saturated" := by
  unfold LogisticsAnalyzer.saturatedAll at h
  rw [List.mem_filterMap] at h
  obtain ⟨pb, _, hpb⟩ := h
  split_ifs at hpb
  simp only [Option.some.injEq] at hpb
  rw [← hpb]
  rfl

/-- Every entry of the untruncated near-saturation list is tagged
`"near_saturation"`. -/
lemma nearAll_status {fs : FactoryState} {pid : Option ℤ}
    {f : Option (List String)} {t : ℚ} {e : LogisticsAnalyzer.BeltEntry}
    (h : e ∈ LogisticsAnalyzer.nearAll fs pid f t) : e.status = "near_saturation" := by
  unfold LogisticsAnalyzer.nearAll at h
  rw [List.mem_filterMap] at h
  obtain ⟨pb, _, hpb⟩ := h
  split_ifs at hpb
  simp only [Option.some.injEq] at hpb
  rw [← hpb]
  rfl

/-! Claim theorems. -/

/-- C8: if `get_current_state` is called while the client is not
connected and the single `connect()` attempt it then makes fails, the
call fails with the connection-unavailable condition after exactly that
one connect attempt. -/
theorem get_current_state_connect_failure_single_attempt
    (s : RealTimeStream.State) (incoming : Option FactoryState)
    (h : RealTimeStream.is_connected s = false) :
    RealTimeStream.get_current_state s false incoming =
      (.error .connectionUnavailable, 1) := by
  simp [RealTimeStream.get_current_state, h]

/-- Witness for C8 at a disconnected client that has received no
state. -/
theorem get_current_state_connect_failure_witness :
    RealTimeStream.is_connected disconnectedStream = false ∧
      RealTimeStream.get_current_state disconnectedStream false none =
        (.error .connectionUnavailable, 1) :=
  ⟨rfl, get_current_state_connect_failure_single_attempt disconnectedStream none rfl⟩

/-- C9: the empty item filter is falsy in `if item_filter and ...`, so
`analyze` with `item_filter=[]` returns exactly the report of
`item_filter=None`. -/
theorem logistics_empty_filter_eq_none (fs : FactoryState) (pid : Option ℤ) (t : ℚ) :
    LogisticsAnalyzer.analyze fs pid (some []) t = LogisticsAnalyzer.analyze fs pid none t := by
  have h : LogisticsAnalyzer.beltSkipped (some []) = LogisticsAnalyzer.beltSkipped none := by
    funext b
    simp [LogisticsAnalyzer.beltSkipped]
  have hsel : LogisticsAnalyzer.selectedBelts fs pid (some []) =
      LogisticsAnalyzer.selectedBelts fs pid none := by
    unfold LogisticsAnalyzer.selectedBelts
    simp only [h]
  unfold LogisticsAnalyzer.analyze LogisticsAnalyzer.saturatedAll LogisticsAnalyzer.nearAll
  rw [hsel]

/-- C10: every `analysis_type` other than the three known strings falls
into the `else` branch and produces the combined three-section
report. -/
theorem load_save_unknown_type_runs_full (analysis_type : String) (fs : FactoryState)
    (h₁ : analysis_type ≠ "production") (h₂ : analysis_type ≠ "power")
    (h₃ : analysis_type ≠ "logistics") :
    Server.load_save_analysis (.ok fs) Server.runBottleneck Server.runPower
        Server.runLogistics analysis_type =
      .full (BottleneckAnalyzer.analyze fs none none 60 true)
        (PowerAnalyzer.analyze fs none true) (LogisticsAnalyzer.analyze fs none none 95) := by
  simp [Server.load_save_analysis, Server.runBottleneck, Server.runPower,
    Server.runLogistics, h₁, h₂, h₃, bind, Except.bind, pure, Except.pure]

/-- Witness for C10 at the misspelled type `"Full"`. -/
theorem load_save_unknown_type_witness :
    Server.load_save_analysis (.ok exampleEmptyState) Server.runBottleneck Server.runPower
        Server.runLogistics ("Full") =
      .full (BottleneckAnalyzer.analyze exampleEmptyState none none 60 true)
        (PowerAnalyzer.analyze exampleEmptyState none true)
        (LogisticsAnalyzer.analyze exampleEmptyState none none 95) :=
  load_save_unknown_type_runs_full ("Full") exampleEmptyState (by decide) (by decide)
    (by decide)

/-- C1 counterexample: in a `full` analysis whose bottleneck analyzer
succeeds and whose power analyzer hits an internal fault, the call
returns only a structured error object, not the sibling results. -/
theorem load_save_full_single_try_counterexample :
    Server.runBottleneck exampleEmptyState =
        .ok (BottleneckAnalyzer.analyze exampleEmptyState none none 60 true) ∧
      Server.failingPower exampleEmptyState = .error (.other ("boom")) ∧
      Server.load_save_analysis (.ok exampleEmptyState) Server.runBottleneck
          Server.failingPower Server.runLogistics ("full") =
        .errorObj ("parse_failed") ("boom") :=
  ⟨rfl, rfl, rfl⟩

/-- C1 (amended): a fault in the power analyzer during a `full`
analysis makes `load_save_analysis` return the single structured
`parse_failed` error, discarding the bottleneck report that had already
succeeded. -/
theorem load_save_full_aborts_on_analyzer_fault (fs : FactoryState)
    (run_bottleneck : FactoryState → Except Server.PyErr BottleneckAnalyzer.Report)
    (run_power : FactoryState → Except Server.PyErr PowerAnalyzer.Report)
    (run_logistics : FactoryState → Except Server.PyErr LogisticsAnalyzer.Report)
    (b : BottleneckAnalyzer.Report) (m : String)
    (hb : run_bottleneck fs = .ok b) (hp : run_power fs = .error (.other m)) :
    Server.load_save_analysis (.ok fs) run_bottleneck run_power run_logistics ("full") =
      .errorObj ("parse_failed") m := by
  simp [Server.load_save_analysis, hb, hp, bind, Except.bind]

/-- Witness for C1 (amended) at concrete analyzers. -/
theorem load_save_full_aborts_witness :
    Server.load_save_analysis (.ok exampleEmptyState) Server.runBottleneck
        Server.failingPower Server.runLogistics ("full") =
      .errorObj ("parse_failed") ("boom") :=
  load_save_full_aborts_on_analyzer_fault exampleEmptyState Server.runBottleneck
    Server.failingPower Server.runLogistics
    (BottleneckAnalyzer.analyze exampleEmptyState none none 60 true) ("boom") rfl rfl

/-- C4: an assembler yields a finding exactly when its efficiency is
below 90 and one of the two flags is set; the finding type is
input-starvation when the starved flag is set, else output-blocked;
otherwise no finding. -/
theorem bottleneck_classification_exactly_one (a : AssemblerMetrics) (p : PlanetState)
    (tgt : Option String) :
    ((∃ b, BottleneckAnalyzer.assemblerStep p tgt a = some b ∧
        b.bottleneck_type = "input_starvation") ↔
      (a.efficiency < 90 ∧ a.input_starved = true)) ∧
    ((∃ b, BottleneckAnalyzer.assemblerStep p tgt a = some b ∧
        b.bottleneck_type = "output_blocked") ↔
      (a.efficiency < 90 ∧ a.input_starved = false ∧ a.output_blocked = true)) ∧
    (BottleneckAnalyzer.assemblerStep p tgt a = none ↔
      (90 ≤ a.efficiency ∨ (a.input_starved = false ∧ a.output_blocked = false))) := by
  by_cases heff : a.efficiency < 90 <;>
    cases hst : a.input_starved <;> cases hbl : a.output_blocked <;>
      simp_all [BottleneckAnalyzer.assemblerStep, BottleneckAnalyzer.analyze_assembler,
        not_lt, le_of_lt]
  all_goals exact ⟨fun ⟨_, ⟨hlt, _⟩, _⟩ => hlt, fun hlt => absurd hlt (not_lt.mpr heff)⟩

/-- C2 counterexample: a frame whose planet-id key is `"abc"` makes
`from_realtime_data` raise (`int("abc")` is a `ValueError`), so the
constructor is not total. -/
theorem from_realtime_data_error_on_nonnumeric_key :
    FactoryState.from_realtime_data badKeyFrame = .error ("abc") := rfl

/-- The planet loop succeeds whenever every planet-id key parses. -/
lemma buildPlanets_ok (l : List (String × RawPlanetData))
    (h : ∀ kp ∈ l, (pyStrToInt kp.1).isSome = true) :
    ∀ acc, ∃ ps, buildPlanets l acc = .ok ps := by
  induction l with
  | nil => exact fun acc => ⟨acc, rfl⟩
  | cons kp rest ih =>
      intro acc
      have hk : (pyStrToInt kp.1).isSome = true := h kp (List.mem_cons_self _ _)
      obtain ⟨pid, hpid⟩ := Option.isSome_iff_exists.mp hk
      have hrest : ∀ kq ∈ rest, (pyStrToInt kq.1).isSome = true := fun kq hkq =>
        h kq (List.mem_cons_of_mem _ hkq)
      obtain ⟨ps, hps⟩ := ih hrest (dictInsert acc pid (buildPlanetState pid kp.2))
      refine ⟨ps, ?_⟩
      have hstep : buildPlanets (kp :: rest) acc =
          buildPlanets rest (dictInsert acc pid (buildPlanetState pid kp.2)) := by
        simp [buildPlanets, hpid]
      rw [hstep, hps]

/-- C2 (amended): `from_realtime_data` succeeds on every input all of
whose planet-id keys parse as integers, with missing fields defaulting
to zero or empty values (witnessed on the all-defaults input). -/
theorem from_realtime_data_total_on_numeric_keys :
    (∀ d : RawRealtimeData,
        (∀ kp ∈ d.planets.getD [], (pyStrToInt kp.1).isSome = true) →
          (FactoryState.from_realtime_data d).isOk = true) ∧
      FactoryState.from_realtime_data { planets := none, timestamp := none } =
        .ok { timestamp := 0, planets := [] } := by
  constructor
  · intro d h
    obtain ⟨ps, hps⟩ := buildPlanets_ok (d.planets.getD []) h []
    simp [FactoryState.from_realtime_data, hps, bind, Except.bind, Except.isOk,
      Except.toBool, pure, Except.pure]
  · rfl

/-- Witness for C2 (amended) at a one-planet frame keyed `"7"`. -/
theorem from_realtime_data_total_witness :
    (FactoryState.from_realtime_data goodKeyFrame).isOk = true :=
  from_realtime_data_total_on_numeric_keys.1 goodKeyFrame (by decide)

/-- C5: under the data-model invariant that efficiencies are
non-negative, the returned findings list is the top 10 of the stable
descending severity sort: it is sorted by non-increasing severity, ties
keep insertion order, it has at most 10 entries, and every reported
severity lies in (0, 100]. -/
theorem bottleneck_report_sorted_capped_bounded (fs : FactoryState) (planet_id : Option ℤ)
    (target_item : Option String) (time_window : ℤ) (include_downstream : Bool)
    (hinv : ∀ pp ∈ fs.planets, ∀ a ∈ pp.2.assemblers, 0 ≤ a.efficiency) :
    (BottleneckAnalyzer.analyze fs planet_id target_item time_window
          include_downstream).bottlenecks =
        (BottleneckAnalyzer.sortedFindings fs planet_id target_item).take 10 ∧
      (BottleneckAnalyzer.analyze fs planet_id target_item time_window
          include_downstream).bottlenecks.Pairwise
        (fun b₁ b₂ => b₂.severity ≤ b₁.severity) ∧
      (BottleneckAnalyzer.analyze fs planet_id target_item time_window
          include_downstream).bottlenecks.length ≤ 10 ∧
      (∀ v : ℚ,
        (BottleneckAnalyzer.sortedFindings fs planet_id target_item).filter
            (fun b => decide (b.severity = v)) =
          (BottleneckAnalyzer.collectFindings fs planet_id target_item).filter
            (fun b => decide (b.severity = v))) ∧
      (∀ b ∈ (BottleneckAnalyzer.analyze fs planet_id target_item time_window
          include_downstream).bottlenecks, 0 < b.severity ∧ b.severity ≤ 100) := by
  refine ⟨rfl, ?_, ?_, ?_, ?_⟩
  · have hs := List.sorted_mergeSort bottleneckLE_trans bottleneckLE_total
      (BottleneckAnalyzer.collectFindings fs planet_id target_item)
    have hs' : (BottleneckAnalyzer.sortedFindings fs planet_id target_item).Pairwise
        (fun b₁ b₂ => b₂.severity ≤ b₁.severity) := by
      refine hs.imp ?_
      intro a b hab
      simpa [BottleneckAnalyzer.bottleneckLE] using hab
    exact List.Pairwise.sublist (List.take_sublist _ _) hs'
  · exact List.length_take_le _ _
  · intro v
    exact mergeSort_filter_severity _ v
  · intro b hb
    have hb' : b ∈ BottleneckAnalyzer.sortedFindings fs planet_id target_item :=
      List.take_subset _ _ hb
    have hmem : b ∈ BottleneckAnalyzer.collectFindings fs planet_id target_item :=
      (List.mergeSort_perm _ _).mem_iff.mp hb'
    unfold BottleneckAnalyzer.collectFindings at hmem
    rw [List.mem_flatMap] at hmem
    obtain ⟨pp, hpp, hb₂⟩ := hmem
    rw [List.mem_filterMap] at hb₂
    obtain ⟨a, ha, hstep⟩ := hb₂
    obtain ⟨hlt, hsev⟩ := assemblerStep_severity hstep
    have heff0 : 0 ≤ a.efficiency := by
      unfold BottleneckAnalyzer.selectedPlanets at hpp
      exact hinv pp (List.mem_of_mem_filter hpp) a ha
    rw [hsev]
    constructor <;> linarith

/-- Witness for C5 at a one-assembler state satisfying the
invariant. -/
theorem bottleneck_report_witness :
    (BottleneckAnalyzer.analyze starvedState none none 60 true).bottlenecks.length ≤ 10 :=
  (bottleneck_report_sorted_capped_bounded starvedState none none 60 true
    (by
      intro pp hpp a ha
      simp only [starvedState, List.mem_singleton] at hpp
      subst hpp
      simp only [List.mem_singleton] at ha
      subst ha
      norm_num [AssemblerMetrics.efficiency, starvedAssembler])).2.2.1

/-- C6: a selected belt is classified saturated exactly when its
saturation reaches the threshold, near-saturation exactly when it lies
in [threshold - 10, threshold), and is omitted below that; hence no
belt entry appears in both report lists. -/
theorem logistics_belt_classification_disjoint (fs : FactoryState) (planet_id : Option ℤ)
    (item_filter : Option (List String)) (t : ℚ) :
    (∀ b : BeltMetrics,
        (LogisticsAnalyzer.satCondition t b = true ↔ t ≤ b.saturation_percent) ∧
          (LogisticsAnalyzer.nearCondition t b = true ↔
            (t - 10 ≤ b.saturation_percent ∧ b.saturation_percent < t)) ∧
          ((LogisticsAnalyzer.satCondition t b = false ∧
              LogisticsAnalyzer.nearCondition t b = false) ↔
            b.saturation_percent < t - 10)) ∧
      (LogisticsAnalyzer.analyze fs planet_id item_filter t).saturated_belts =
        ((LogisticsAnalyzer.saturatedAll fs planet_id item_filter t).mergeSort
            LogisticsAnalyzer.beltEntryLE).take 20 ∧
      (LogisticsAnalyzer.analyze fs planet_id item_filter t).near_saturation =
        ((LogisticsAnalyzer.nearAll fs planet_id item_filter t).mergeSort
            LogisticsAnalyzer.beltEntryLE).take 10 ∧
      (∀ e ∈ (LogisticsAnalyzer.analyze fs planet_id item_filter t).saturated_belts,
        e.status = "saturated") ∧
      (∀ e ∈ (LogisticsAnalyzer.analyze fs planet_id item_filter t).near_saturation,
        e.status = "near_saturation") ∧
      (∀ e, e ∈ (LogisticsAnalyzer.analyze fs planet_id item_filter t).saturated_belts →
        e ∈ (LogisticsAnalyzer.analyze fs planet_id item_filter t).near_saturation →
          False) := by
  have hsat : ∀ e ∈ (LogisticsAnalyzer.analyze fs planet_id item_filter t).saturated_belts,
      e.status = "saturated" := by
    intro e he
    exact saturatedAll_status ((List.mergeSort_perm _ _).mem_iff.mp (List.take_subset _ _ he))
  have hnear : ∀ e ∈ (LogisticsAnalyzer.analyze fs planet_id item_filter t).near_saturation,
      e.status = "near_saturation" := by
    intro e he
    exact nearAll_status ((List.mergeSort_perm _ _).mem_iff.mp (List.take_subset _ _ he))
  refine ⟨?_, rfl, rfl, hsat, hnear, ?_⟩
  · intro b
    by_cases h₁ : t ≤ b.saturation_percent <;> by_cases h₂ : t - 10 ≤ b.saturation_percent <;>
      refine ⟨?_, ?_, ?_⟩ <;>
        simp [LogisticsAnalyzer.satCondition, LogisticsAnalyzer.nearCondition, h₁, h₂,
          ge_iff_le] <;>
          linarith
  · intro e h₁ h₂
    exact absurd ((hsat e h₁).symm.trans (hnear e h₂)) (by decide)

/-- Witness for C6: the 96.67-percent belt passes the saturated test at
the default threshold. -/
theorem logistics_belt_classification_witness :
    LogisticsAnalyzer.satCondition 95 busyBelt = true :=
  ((logistics_belt_classification_disjoint busyBeltState none none 95).1 busyBelt).1.mpr
    (by norm_num [BeltMetrics.saturation_percent, busyBelt])

/-- C7: a planet with power data and negative surplus is marked
deficit and given the tier recommendation selected by deficit
magnitude (under 10 MW: one thermal plant; in [10, 50): floor of a
fifteenth plus one fusion plants; at least 50 MW: high-capacity
generation); in particular the 100 MW generation / 120 MW consumption
planet gets two fusion plants. -/
theorem power_deficit_recommendation_tiers :
    (∀ (fs : FactoryState) (planet_id : Option ℤ) (inc : Bool),
        (PowerAnalyzer.analyze fs planet_id inc).planets =
          (PowerAnalyzer.selectedPowerPlanets fs planet_id).map
            (PowerAnalyzer.planetEntry inc)) ∧
      (∀ (inc : Bool) (sel : ℤ × PlanetState × PowerMetrics),
        sel.2.2.surplus_mw < 0 →
          (PowerAnalyzer.planetEntry inc sel).status = "deficit" ∧
            (PowerAnalyzer.planetEntry inc sel).recommendation =
              some (PowerAnalyzer.generate_recommendation sel.2.2)) ∧
      (∀ pw : PowerMetrics, pw.surplus_mw < 0 →
        (|pw.surplus_mw| < 10 →
          PowerAnalyzer.generate_recommendation pw = .minorThermal |pw.surplus_mw|) ∧
        (10 ≤ |pw.surplus_mw| → |pw.surplus_mw| < 50 →
          PowerAnalyzer.generate_recommendation pw =
            .fusionPlants |pw.surplus_mw| (⌊|pw.surplus_mw| / 15⌋ + 1)) ∧
        (50 ≤ |pw.surplus_mw| →
          PowerAnalyzer.generate_recommendation pw = .majorDeficit |pw.surplus_mw|)) ∧
      (PowerAnalyzer.analyze deficitState none true).planets.map
          (fun e => (e.planet_id, e.status, e.recommendation)) =
        [(1, ("deficit"), some (.fusionPlants 20 2))] := by
  refine ⟨fun fs planet_id inc => rfl, ?_, ?_, ?_⟩
  · intro inc sel hneg
    constructor
    · simp [PowerAnalyzer.planetEntry, not_le.mpr hneg]
    · simp [PowerAnalyzer.planetEntry, hneg]
  · intro pw hneg
    refine ⟨?_, ?_, ?_⟩
    · intro h
      simp [PowerAnalyzer.generate_recommendation, h]
    · intro h₁ h₂
      have hny : ¬ |pw.surplus_mw| < 10 := not_lt.mpr h₁
      have hpos : (0 : ℚ) ≤ |pw.surplus_mw| / 15 := by positivity
      simp [PowerAnalyzer.generate_recommendation, hny, h₂, pyInt, hpos]
    · intro h
      have hny : ¬ |pw.surplus_mw| < 10 := by
        intro hcon
        linarith
      have hny₂ : ¬ |pw.surplus_mw| < 50 := not_lt.mpr h
      simp [PowerAnalyzer.generate_recommendation, hny, hny₂]
  · have hsel : PowerAnalyzer.selectedPowerPlanets deficitState none =
        [(1, { planet_id := 1, power := some deficitPowerMetrics }, deficitPowerMetrics)] := by
      simp [PowerAnalyzer.selectedPowerPlanets, deficitState, keepPlanet]
    have hsurp : deficitPowerMetrics.surplus_mw = -20 := by
      norm_num [PowerMetrics.surplus_mw, deficitPowerMetrics]
    have hrec : PowerAnalyzer.generate_recommendation deficitPowerMetrics =
        .fusionPlants 20 2 := by
      have habs : |deficitPowerMetrics.surplus_mw| = 20 := by
        rw [hsurp]
        norm_num
      have hfl : ⌊(20 : ℚ) / 15⌋ = 1 := by
        rw [Int.floor_eq_iff]
        norm_num
      simp only [PowerAnalyzer.generate_recommendation, habs, pyInt, hfl]
      norm_num
    simp [PowerAnalyzer.analyze, hsel, PowerAnalyzer.planetEntry, hsurp, hrec]

/-- Witness for C7: the fusion tier applied to the scenario metrics. -/
theorem power_deficit_recommendation_witness :
    PowerAnalyzer.generate_recommendation deficitPowerMetrics =
      .fusionPlants |deficitPowerMetrics.surplus_mw|
        (⌊|deficitPowerMetrics.surplus_mw| / 15⌋ + 1) :=
  ((power_deficit_recommendation_tiers.2.2.1 deficitPowerMetrics
      (by norm_num [PowerMetrics.surplus_mw, deficitPowerMetrics])).2.1
    (by norm_num [PowerMetrics.surplus_mw, deficitPowerMetrics])
    (by norm_num [PowerMetrics.surplus_mw, deficitPowerMetrics]))

/-- C3 (amended): the three summary fields are each independently
rounded to two decimals, so the reported net surplus agrees with the
difference of the reported totals to within one cent (0.01), for every
factory state and planet filter. -/
theorem net_surplus_within_rounding_tolerance (fs : FactoryState) (planet_id : Option ℤ)
    (inc : Bool) :
    |(PowerAnalyzer.analyze fs planet_id inc).summary.net_surplus_mw -
        ((PowerAnalyzer.analyze fs planet_id inc).summary.total_generation_mw -
          (PowerAnalyzer.analyze fs planet_id inc).summary.total_consumption_mw)| ≤
      1 / 100 :=
  roundTo_two_sub_bound _ _

/-- C3 counterexample: at generation 1.006 MW and consumption 0.003 MW
the reported net surplus (1.00) differs from the difference of the
reported totals (1.01) by a full cent, far beyond the claimed 1e-6
tolerance. -/
theorem net_surplus_tolerance_counterexample :
    1 / 1000000 <
      |(PowerAnalyzer.analyze roundingState none true).summary.net_surplus_mw -
        ((PowerAnalyzer.analyze roundingState none true).summary.total_generation_mw -
          (PowerAnalyzer.analyze roundingState none true).summary.total_consumption_mw)| := by
  have hsel : PowerAnalyzer.selectedPowerPlanets roundingState none =
      [(1, { planet_id := 1, power := some roundingPowerMetrics }, roundingPowerMetrics)] := by
    simp [PowerAnalyzer.selectedPowerPlanets, roundingState, keepPlanet]
  have h1 : (PowerAnalyzer.analyze roundingState none true).summary.total_generation_mw =
      roundTo 2 (503 / 500) := by
    simp [PowerAnalyzer.analyze, hsel, roundingPowerMetrics]
  have h2 : (PowerAnalyzer.analyze roundingState none true).summary.total_consumption_mw =
      roundTo 2 (3 / 1000) := by
    simp [PowerAnalyzer.analyze, hsel, roundingPowerMetrics]
  have h3 : (PowerAnalyzer.analyze roundingState none true).summary.net_surplus_mw =
      roundTo 2 (503 / 500 - 3 / 1000) := by
    simp [PowerAnalyzer.analyze, hsel, roundingPowerMetrics]
  have hG : roundTo 2 ((503 : ℚ) / 500) = 101 / 100 := by
    rw [roundTo_eq (z := 101) (by norm_num) (by norm_num)]
    norm_num
  have hC : roundTo 2 ((3 : ℚ) / 1000) = 0 := by
    rw [roundTo_eq (z := 0) (by norm_num) (by norm_num)]
    norm_num
  have hN : roundTo 2 ((503 : ℚ) / 500 - 3 / 1000) = 1 := by
    rw [roundTo_eq (z := 100) (by norm_num) (by norm_num)]
    norm_num
  rw [h1, h2, h3, hG, hC, hN]
  rw [show (1 : ℚ) - (101 / 100 - 0) = -(1 / 100) by norm_num, abs_neg,
    abs_of_pos (by norm_num : (0 : ℚ) < 1 / 100)]
  norm_num
